import Mathlib

/-
Verification development for the crop-recommendation desktop application
(`PROJECT AI/task7.py`).

Shallow embedding conventions:
* Numeric field values entered in the form are modelled as rationals; a form
  entry is modelled by the result of Python `float(...)` on its text, so an
  entry field is `Option ℚ` (`none` when `float` raises `ValueError`).
* The GUI widgets are modelled by a `Display` record (result label, info text,
  probability chart).  The result label is kept as structured data
  (`ResultMsg`) carrying exactly the values the formatted label string shows.
* `messagebox.showerror` calls are modelled as a list of `Dialog` values
  emitted by an operation; the early `return` after a dialog is the
  corresponding control path ending with the state unchanged.
* The trained `RandomForestClassifier` and the numpy random generator are
  library code: the classifier is an abstract `Classifier` value (a predicted
  class index plus a probability vector of matching length), and the crop
  column of the synthetic training data is an arbitrary list of samples drawn
  from the eight fixed crop names.  `LabelEncoder.fit` exposes the sorted
  distinct class names, embedded as `leClasses`.
-/

namespace Task7

/-- The eight fixed crop names, in the order they appear in the
`np.random.choice` call that generates the synthetic `Crop` column. -/
def cropChoices : List String :=
  ["Rice", "Wheat", "Maize", "Cotton", "Sugarcane", "Barley", "Pulses", "Coffee"]

/-- The seven descriptive headings each `BASE_INFO` entry carries, in source
order. -/
def infoHeadings : List String :=
  ["Cultivation", "Water", "Pests", "Harvest", "Fertilizer", "Soil", "Climate"]

/-- The static crop knowledge table `BASE_INFO`, as an association list in the
source's insertion order (crop name to the list of heading/text pairs). -/
def BASE_INFO : List (String × List (String × String)) :=
  [("Rice",
    [("Cultivation", "Paddy fields; transplant 20–30 day seedlings; maintain levees."),
     ("Water", "High — standing water required for much of the season."),
     ("Pests", "Stem borer, leaf folder; watch seedling & tillering stages."),
     ("Harvest", "When grains are golden and moisture ~20%."),
     ("Fertilizer", "Split N application; use urea and basal P/K."),
     ("Soil", "Clayey loam or alluvial soils (good water retention)."),
     ("Climate", "Warm, humid climate; heavy rainfall preferred.")]),
   ("Wheat",
    [("Cultivation", "Sow in well-drained loamy soil; use certified seeds; maintain row spacing."),
     ("Water", "Moderate — critical during tillering & grain filling."),
     ("Pests", "Rusts, aphids; monitor during cool, humid weather."),
     ("Harvest", "Harvest when straw turns yellow and grains hard."),
     ("Fertilizer", "Basal N and top-dress at tillering; balanced NPK."),
     ("Soil", "Loamy soils with good drainage."),
     ("Climate", "Cool to moderate temperatures; less humid than rice.")]),
   ("Maize",
    [("Cultivation", "Sow 3–5 cm deep; ensure fertile soil; plant in rows for mechanized weeding."),
     ("Water", "Higher need at flowering & grain filling stages."),
     ("Pests", "Stem borers, cutworms; use crop rotation."),
     ("Harvest", "Harvest when cobs dry and kernels hard."),
     ("Fertilizer", "Apply N heavily early; add P & K as needed."),
     ("Soil", "Well-drained loam with organic matter."),
     ("Climate", "Warm climate; frost-free period needed.")]),
   ("Cotton",
    [("Cultivation", "Plant stem cuttings; prefer sunny, well-drained fields."),
     ("Water", "Moderate — avoid waterlogging; water more during boll formation."),
     ("Pests", "Bollworm, jassids; use integrated pest management."),
     ("Harvest", "Harvest when bolls open and lint is fluffy."),
     ("Fertilizer", "Balanced NPK; potassium important for lint quality."),
     ("Soil", "Black cotton soil or deep loamy soils."),
     ("Climate", "Warm climate; long growing season.")]),
   ("Sugarcane",
    [("Cultivation", "Plant setts in rows; incorporate green manure."),
     ("Water", "High — regular irrigation required."),
     ("Pests", "Borers, aphids; maintain field sanitation."),
     ("Harvest", "10–18 months depending on variety; harvest when cane is mature."),
     ("Fertilizer", "High N and K requirements; split applications."),
     ("Soil", "Sandy loam to clay loam with organic matter."),
     ("Climate", "Tropical to subtropical climates best.")]),
   ("Barley",
    [("Cultivation", "Sow in cooler season; good seedbed preparation."),
     ("Water", "Moderate — avoid waterlogging."),
     ("Pests", "Rusts; keep disease-resistant varieties when available."),
     ("Harvest", "When spikes yellow and grains firm."),
     ("Fertilizer", "Balanced NPK; lower N than wheat."),
     ("Soil", "Sandy loam to loam."),
     ("Climate", "Cool to moderate; tolerant to poorer soils.")]),
   ("Pulses",
    [("Cultivation", "Sow after rains; seeds often inoculated with Rhizobium."),
     ("Water", "Low to moderate — many pulses are drought tolerant."),
     ("Pests", "Pod borer and aphids; timely monitoring helps."),
     ("Harvest", "Harvest before pods shatter; dry properly."),
     ("Fertilizer", "Low N (fix nitrogen), apply P & K as needed."),
     ("Soil", "Light to medium soils; good drainage."),
     ("Climate", "Often tolerant to semi-arid conditions.")]),
   ("Coffee",
    [("Cultivation", "Shade-grown in rich, well-drained soils; careful pruning."),
     ("Water", "Regular moisture but good drainage required."),
     ("Pests", "Berry borer, leaf rust; pruning and sanitation important."),
     ("Harvest", "Pick ripe red cherries by hand."),
     ("Fertilizer", "Apply compost and balanced NPK; micronutrients helpful."),
     ("Soil", "Rich, slightly acidic soils (pH ~6–6.5)."),
     ("Climate", "Tropical highlands; cooler nights and shade preferred.")])]

/-- The five `EXTRA_TIPS` strings; `_show_crop_info` appends a 2-element
`random.sample` of these to the rendered guide. -/
def EXTRA_TIPS : List String :=
  ["Rotate crops to keep soil healthy.",
   "Use mulching to retain soil moisture and suppress weeds.",
   "Prefer certified seeds for better germination and yields.",
   "Maintain good drainage to avoid root diseases.",
   "Use organic manure to improve soil structure."]

/-- Association-list lookup mirroring a Python `dict` read (`d[k]` /
`d.get(k)` / `k in d`); keys in the embedded dictionaries are distinct, so
first match equals dict lookup. -/
def lookupTable {α : Type} (l : List (String × α)) (k : String) : Option α :=
  (l.find? fun p => p.1 == k).map fun p => p.2

/-- Lookup of one descriptive text field of one crop in the knowledge table. -/
def lookupField (t : List (String × List (String × String))) (c f : String) :
    Option String :=
  (lookupTable t c).bind fun fields => lookupTable fields f

/-- Whether the knowledge lookup of crop `c`, field `f` yields non-empty text. -/
def hasText (t : List (String × List (String × String))) (c f : String) : Bool :=
  match lookupField t c f with
  | some s => !s.isEmpty
  | none => false

/-- A measurement record: the seven numeric values parsed from the form. -/
structure Measurement where
  nitrogen : ℚ
  phosphorus : ℚ
  potassium : ℚ
  temperature : ℚ
  humidity : ℚ
  pH : ℚ
  rainfall : ℚ
deriving DecidableEq

/-- The form entries as seen by `predict_crop`: for each field, the result of
`float(entry.get())`, which is `none` when parsing raises `ValueError`. -/
structure Entries where
  nitrogen : Option ℚ
  phosphorus : Option ℚ
  potassium : Option ℚ
  temperature : Option ℚ
  humidity : Option ℚ
  pH : Option ℚ
  rainfall : Option ℚ
deriving DecidableEq

/-- The dict comprehension `{k: float(v.get()) for k, v in self.entries.items()}`:
it succeeds exactly when every field parses, and any `ValueError` aborts the
whole comprehension. -/
def parseEntries (e : Entries) : Option Measurement :=
  match e.nitrogen, e.phosphorus, e.potassium, e.temperature, e.humidity,
      e.pH, e.rainfall with
  | some n, some p, some k, some t, some h, some ph, some r =>
      some ⟨n, p, k, t, h, ph, r⟩
  | _, _, _, _, _, _, _ => none

/-- One entry of the validation loop: a field name, the parsed value
`inputs[k]`, and the bounds from the `ranges` dict. -/
structure FieldCheck where
  name : String
  value : ℚ
  lo : Int
  hi : Int
deriving DecidableEq

/-- The Python check `low <= inputs[k] <= high`. -/
def withinB (lo hi : Int) (v : ℚ) : Bool :=
  decide ((lo : ℚ) ≤ v ∧ v ≤ (hi : ℚ))

/-- The validation loop body's data: the `ranges` dict items in insertion
order, each paired with the looked-up input value `inputs[k]` (the `inputs`
and `ranges` dicts share exactly these keys). -/
def checksList (m : Measurement) : List FieldCheck :=
  [⟨"Nitrogen", m.nitrogen, 0, 150⟩,
   ⟨"Phosphorus", m.phosphorus, 0, 150⟩,
   ⟨"Potassium", m.potassium, 0, 150⟩,
   ⟨"Temperature", m.temperature, 10, 40⟩,
   ⟨"Humidity", m.humidity, 20, 90⟩,
   ⟨"pH", m.pH, 4, 9⟩,
   ⟨"Rainfall", m.rainfall, 50, 300⟩]

/-- Whether one field check fails, i.e. `not (low <= inputs[k] <= high)`. -/
def outOfRangeB (c : FieldCheck) : Bool := !withinB c.lo c.hi c.value

/-- The first failing check of the validation loop (the loop returns at the
first failure), `none` when every field is in range. -/
def firstViolation (m : Measurement) : Option FieldCheck :=
  (checksList m).find? outOfRangeB

/-- A blocking `messagebox.showerror` dialog (title, message). -/
structure Dialog where
  title : String
  message : String
deriving DecidableEq

/-- The f-string `f"{k} must be between {low} and {high}."`. -/
def rangeMsg (k : String) (lo hi : Int) : String :=
  k ++ " must be between " ++ toString lo ++ " and " ++ toString hi ++ "."

/-- The dialog shown for the first out-of-range field. -/
def rangeDialog (c : FieldCheck) : Dialog :=
  ⟨"Invalid Input", rangeMsg c.name c.lo c.hi⟩

/-- The dialog shown when some entry is non-numeric. -/
def numericDialog : Dialog :=
  ⟨"Invalid Input", "Please enter numeric values for all fields."⟩

/-- A single-quote character, for building the search error message. -/
def sq : String := String.mk [Char.ofNat 39]

/-- The f-string of the search failure dialog. -/
def notFoundMsg (crop : String) : String :=
  "Crop " ++ sq ++ crop ++ sq ++ " not found."

/-- Python `str.capitalize` for one character position: the first character is
uppercased, the rest lowercased (ASCII, as in every string this app compares). -/
def pyCapitalize (s : String) : String :=
  match s.toList with
  | [] => ""
  | c :: cs => String.mk (c.toUpper :: cs.map Char.toLower)

/-- Python `str.strip` (no argument): drop leading and trailing whitespace. -/
def pyStrip (s : String) : String :=
  String.mk (((s.toList.dropWhile Char.isWhitespace).reverse.dropWhile
    Char.isWhitespace).reverse)

/-- The structured content of the result label: empty at startup, the
recommendation line (crop and confidence percentage, the data shown by
`f"🌿 Recommended Crop: {pred_crop}    ✅ Confidence: {confidence:.2f}%"`),
or the search header `f"🌾 Information for {crop}:"`. -/
inductive ResultMsg where
  | empty : ResultMsg
  | recommended (crop : String) (confidence : ℚ) : ResultMsg
  | searched (crop : String) : ResultMsg
deriving DecidableEq

/-- The displayed outputs: result label, cultivation-guide text widget, and
the probability bar chart (one `(class, probability)` bar per entry). -/
structure Display where
  resultLabel : ResultMsg
  infoText : String
  chart : List (String × ℚ)
deriving DecidableEq

/-- The trained model, abstractly: `model.predict` yields an encoded label,
i.e. an index into the encoder's class list, and `model.predict_proba` yields
one probability per class. -/
structure Classifier (classes : List String) where
  predictIdx : Measurement → Fin classes.length
  predictProba : Measurement → List ℚ
  probaLen : ∀ m, (predictProba m).length = classes.length

/-- The process state the GUI callbacks touch: the module-level classifier and
knowledge table (read-only in the source) and the mutable display widgets. -/
structure AppState (classes : List String) where
  clf : Classifier classes
  baseInfo : List (String × List (String × String))
  display : Display

/-- `np.max` of the probability vector (numpy's maximum of a non-empty
array; the `[]` case is arbitrary and never reached, `predict_proba` output
being non-empty). -/
def npMax : List ℚ → ℚ
  | [] => 0
  | [a] => a
  | a :: b :: rest => max a (npMax (b :: rest))

/-- The separator line `"-"*56` of the cultivation guide. -/
def dashLine : String := String.mk (List.replicate 56 (Char.ofNat 45))

/-- One `f"🔹 {heading}: {text}\n\n"` line of the guide. -/
def infoLine (p : String × String) : String :=
  "🔹 " ++ p.1 ++ ": " ++ p.2 ++ "\n\n"

/-- `_show_crop_info`'s rendered text.  `tips` stands for the 2-element
`random.sample(EXTRA_TIPS, k=2)` (randomness passed in as data). -/
def renderCropInfo (t : List (String × List (String × String)))
    (crop : String) (tips : List String) : String :=
  let base := (lookupTable t crop).getD []
  "🌾 " ++ crop ++ " Cultivation Guide\n" ++ dashLine ++ "\n\n"
    ++ base.foldl (fun acc p => acc ++ infoLine p) ""
    ++ "📝 Extra Tips:\n"
    ++ tips.foldl (fun acc tip => acc ++ "   • " ++ tip ++ "\n") ""

/-- The `predict_crop` callback: parse all entries (generic dialog and return
on `ValueError`), check each range in order (field-specific dialog and return
at the first failure), then predict, look up the guide, and redraw label,
info text and chart.  Returns the new state and the dialogs shown. -/
def predictCrop (classes : List String) (e : Entries) (tips : List String)
    (st : AppState classes) : AppState classes × List Dialog :=
  match parseEntries e with
  | none => (st, [numericDialog])
  | some m =>
    match firstViolation m with
    | some c => (st, [rangeDialog c])
    | none =>
      let predCrop := classes.get (st.clf.predictIdx m)
      let probs := st.clf.predictProba m
      let confidence := npMax probs * 100
      ({ st with display :=
          { resultLabel := ResultMsg.recommended predCrop confidence
            infoText := renderCropInfo st.baseInfo predCrop tips
            chart := classes.zip probs } }, [])

/-- The key the search callback looks up:
`crop = self.search_var.get().capitalize().strip()` (capitalize first, then
strip). -/
def searchKey (s : String) : String := pyStrip (pyCapitalize s)

/-- The `search_crop` callback: `crop = entry.capitalize().strip()`, then a
`Not Found` dialog and return when `crop` is not a key of `BASE_INFO`,
otherwise redraw the label and info text (the chart is untouched). -/
def searchCrop (classes : List String) (s : String) (tips : List String)
    (st : AppState classes) : AppState classes × List Dialog :=
  if (lookupTable st.baseInfo (searchKey s)).isSome then
    ({ st with display :=
        { resultLabel := ResultMsg.searched (searchKey s)
          infoText := renderCropInfo st.baseInfo (searchKey s) tips
          chart := st.display.chart } }, [])
  else
    (st, [⟨"Not Found", notFoundMsg (searchKey s)⟩])

/-- A GUI event: a click of the Predict button (with the current entry texts
and the tips the RNG will sample) or of the Search button. -/
inductive Op where
  | predictClick (e : Entries) (tips : List String) : Op
  | searchClick (s : String) (tips : List String) : Op

/-- Run one event against the application state. -/
def runOp (classes : List String) (op : Op) (st : AppState classes) :
    AppState classes :=
  match op with
  | Op.predictClick e tips => (predictCrop classes e tips st).1
  | Op.searchClick s tips => (searchCrop classes s tips st).1

/-- Run a sequence of GUI events. -/
def runOps (classes : List String) (ops : List Op) (st : AppState classes) :
    AppState classes :=
  ops.foldl (fun s op => runOp classes op s) st

/-- Lexicographic strict order on character lists. -/
def lexLt : List Char → List Char → Bool
  | [], [] => false
  | [], _ :: _ => true
  | _ :: _, [] => false
  | a :: as, b :: bs => if a < b then true else if b < a then false else lexLt as bs

/-- Lexicographic strict order on strings (the order `np.unique` sorts by). -/
def strLt (a b : String) : Bool := lexLt a.toList b.toList

/-- Insert a string into a sorted list. -/
def insertSorted (a : String) : List String → List String
  | [] => [a]
  | b :: rest => if strLt a b then a :: b :: rest else b :: insertSorted a rest

/-- Insertion sort on strings. -/
def insertionSort : List String → List String
  | [] => []
  | a :: rest => insertSorted a (insertionSort rest)

/-- `LabelEncoder.fit` on the synthetic `Crop` column: `classes_` is the
sorted list of distinct sample values (`np.unique`). -/
def leClasses (samples : List String) : List String :=
  insertionSort samples.dedup

/-- Whether the first list is a prefix of the second. -/
def prefixOfB : List Char → List Char → Bool
  | [], _ => true
  | _ :: _, [] => false
  | a :: as, b :: bs => a == b && prefixOfB as bs

/-- Whether the first list occurs contiguously inside the second. -/
def subListB (k : List Char) : List Char → Bool
  | [] => prefixOfB k []
  | b :: bs => prefixOfB k (b :: bs) || subListB k bs

/-- Whether string `k` occurs as a substring of `msg` (used to state that a
dialog message names a field or a bound). -/
def mentions (msg k : String) : Bool :=
  subListB k.toList msg.toList

/-- The claim's validity predicate, stated in the spec's own words: each field
within its fixed inclusive range. -/
def inRangeSpec (m : Measurement) : Prop :=
  0 ≤ m.nitrogen ∧ m.nitrogen ≤ 150 ∧
  0 ≤ m.phosphorus ∧ m.phosphorus ≤ 150 ∧
  0 ≤ m.potassium ∧ m.potassium ≤ 150 ∧
  10 ≤ m.temperature ∧ m.temperature ≤ 40 ∧
  20 ≤ m.humidity ∧ m.humidity ≤ 90 ∧
  4 ≤ m.pH ∧ m.pH ≤ 9 ∧
  50 ≤ m.rainfall ∧ m.rainfall ≤ 300

/-- The seven field names in the validation order. -/
def fieldNames : List String :=
  ["Nitrogen", "Phosphorus", "Potassium", "Temperature", "Humidity", "pH", "Rainfall"]

/-- The decimal strings of all the range bounds appearing in the validation
table. -/
def boundStrings : List String :=
  ["0", "150", "10", "40", "20", "90", "4", "9", "50", "300"]

/-- A concrete in-range measurement used by the witnesses. -/
def mOk : Measurement := ⟨75, 75, 75, 25, 55, 6, 150⟩

/-- A concrete measurement at the lower temperature boundary. -/
def mT10 : Measurement := ⟨75, 75, 75, 10, 55, 6, 150⟩

/-- A concrete measurement at the upper temperature boundary. -/
def mT40 : Measurement := ⟨75, 75, 75, 40, 55, 6, 150⟩

/-- Concrete fully numeric, in-range entries. -/
def eOk : Entries := ⟨some 75, some 75, some 75, some 25, some 55, some 6, some 150⟩

/-- Concrete entries whose Nitrogen text is non-numeric. -/
def eBad : Entries := ⟨none, some 75, some 75, some 25, some 55, some 6, some 150⟩

/-- Concrete entries with several fields out of range (Nitrogen 200,
Temperature 50, Rainfall 1000). -/
def eMulti : Entries :=
  ⟨some 200, some 75, some 75, some 50, some 55, some 6, some 1000⟩

/-- The class list of a training run whose samples hit all eight crops. -/
def clsAll : List String := leClasses cropChoices

/-- A concrete classifier over `clsAll` used by the witnesses (constant
prediction, uniform probabilities). -/
def clf0 : Classifier clsAll where
  predictIdx := fun _ => ⟨0, by decide⟩
  predictProba := fun _ => List.replicate clsAll.length (1 / 8)
  probaLen := fun _ => List.length_replicate _ _

/-- A concrete application state at startup. -/
def st0 : AppState clsAll := ⟨clf0, BASE_INFO, ⟨ResultMsg.empty, "", []⟩⟩

/-- Helper: `find?` returns the head of the filtered list (the first match). -/
theorem find?_eq_head?_filter {α : Type} (p : α → Bool) (l : List α) :
    l.find? p = (l.filter p).head? := by
  induction l with
  | nil => rfl
  | cons a as ih =>
    by_cases h : p a
    · rw [List.find?_cons_of_pos _ h, List.filter_cons_of_pos h, List.head?_cons]
    · rw [List.find?_cons_of_neg _ h, List.filter_cons_of_neg h, ih]

/-- Helper: every element of `insertSorted a l` is `a` or an element of `l`. -/
theorem mem_insertSorted {b a : String} {l : List String} :
    b ∈ insertSorted a l ↔ b = a ∨ b ∈ l := by
  induction l with
  | nil => simp [insertSorted]
  | cons c cs ih =>
    by_cases h : strLt a c
    · simp [insertSorted, h]
    · rw [insertSorted, if_neg (by simp [h])]
      simp only [List.mem_cons, ih]
      tauto

/-- Helper: insertion sort preserves membership. -/
theorem mem_insertionSort {a : String} {l : List String} :
    a ∈ insertionSort l ↔ a ∈ l := by
  induction l with
  | nil => simp [insertionSort]
  | cons c cs ih => simp [insertionSort, mem_insertSorted, ih]

/-- Helper: inserting adds exactly one element. -/
theorem length_insertSorted (a : String) (l : List String) :
    (insertSorted a l).length = l.length + 1 := by
  induction l with
  | nil => rfl
  | cons c cs ih => by_cases h : strLt a c <;> simp [insertSorted, h, ih]

/-- Helper: insertion sort preserves length. -/
theorem length_insertionSort (l : List String) :
    (insertionSort l).length = l.length := by
  induction l with
  | nil => rfl
  | cons c cs ih => simp [insertionSort, length_insertSorted, ih]

/-- Helper: the encoder's class list has exactly the sampled crop names as
members. -/
theorem mem_leClasses {a : String} {samples : List String} :
    a ∈ leClasses samples ↔ a ∈ samples := by
  simp [leClasses, mem_insertionSort, List.mem_dedup]

/-- Helper: when the samples hit all eight crop names and nothing else, the
encoder has exactly eight classes. -/
theorem length_leClasses_eight (samples : List String)
    (hsub : ∀ c ∈ samples, c ∈ cropChoices)
    (hsup : ∀ c ∈ cropChoices, c ∈ samples) :
    (leClasses samples).length = 8 := by
  have h1 : (leClasses samples).length = samples.dedup.length := by
    simp [leClasses, length_insertionSort]
  have h2 : samples.toFinset = cropChoices.toFinset := by
    ext a
    simp only [List.mem_toFinset]
    exact ⟨fun h => hsub a h, fun h => hsup a h⟩
  have h3 : samples.dedup.length = samples.toFinset.card :=
    (List.card_toFinset samples).symm
  rw [h1, h3, h2]
  decide

/-- Helper: each of the eight crop names is a key of `BASE_INFO`. -/
theorem cropChoices_are_keys :
    ∀ c ∈ cropChoices, (lookupTable BASE_INFO c).isSome = true := by decide

/-- Helper: one GUI event never changes the knowledge-table component. -/
theorem runOp_baseInfo (classes : List String) (op : Op) (st : AppState classes) :
    (runOp classes op st).baseInfo = st.baseInfo := by
  cases op with
  | predictClick e tips =>
    simp only [runOp]
    unfold predictCrop
    split
    · rfl
    · split <;> rfl
  | searchClick s tips =>
    simp only [runOp]
    unfold searchCrop
    split <;> rfl

/-- Helper: one GUI event never changes the classifier component. -/
theorem runOp_clf (classes : List String) (op : Op) (st : AppState classes) :
    (runOp classes op st).clf = st.clf := by
  cases op with
  | predictClick e tips =>
    simp only [runOp]
    unfold predictCrop
    split
    · rfl
    · split <;> rfl
  | searchClick s tips =>
    simp only [runOp]
    unfold searchCrop
    split <;> rfl

/-- Helper: the validation loop finds no out-of-range field exactly when
every field lies within its fixed inclusive range. -/
theorem firstViolation_none_iff (m : Measurement) :
    firstViolation m = none ↔ inRangeSpec m := by
  rw [firstViolation, List.find?_eq_none]
  simp only [checksList, List.mem_cons, List.not_mem_nil, or_false,
    forall_eq_or_imp, forall_eq, outOfRangeB, withinB, Bool.not_eq_true,
    Bool.not_eq_false', decide_eq_true_eq, inRangeSpec]
  push_cast
  tauto

/-- Helper: a measurement rejected by the validation loop violates the spec
ranges. -/
theorem not_inRangeSpec_of_firstViolation {m : Measurement} {c : FieldCheck}
    (h : firstViolation m = some c) : ¬ inRangeSpec m := by
  intro hr
  have := (firstViolation_none_iff m).mpr hr
  rw [h] at this
  exact Option.noConfusion this

/-- C1: for every measurement record, validation accepts exactly when each
field lies within its fixed inclusive range; exactly the accepted records
proceed to classifier inference (no dialog is raised and the prediction is
rendered exactly in that case); boundary values such as Temperature 10 or 40
are accepted. -/
theorem predict_validation_iff_ranges :
    (∀ m : Measurement, firstViolation m = none ↔ inRangeSpec m) ∧
    (∀ (classes : List String) (st : AppState classes) (e : Entries)
        (m : Measurement) (tips : List String), parseEntries e = some m →
        ((predictCrop classes e tips st).2 = [] ↔ inRangeSpec m)) ∧
    firstViolation mT10 = none ∧ firstViolation mT40 = none := by
  refine ⟨firstViolation_none_iff, ?_, by decide, by decide⟩
  intro classes st e m tips hp
  unfold predictCrop
  rw [hp]
  dsimp only
  cases hfv : firstViolation m with
  | none => simpa using (firstViolation_none_iff m).mp hfv
  | some c => simpa using not_inRangeSpec_of_firstViolation hfv

/-- C1 witness: a concrete in-range record is accepted and reaches inference;
the boundary records evaluate as accepted. -/
theorem predict_validation_iff_ranges_witness :
    (predictCrop clsAll eOk [] st0).2 = [] :=
  (predict_validation_iff_ranges.2.1 clsAll st0 eOk mOk [] rfl).mpr
    (by norm_num [inRangeSpec, mOk])

/-- C2 counterexample: with a non-numeric Nitrogen entry (a concrete invalid
prediction request), the single dialog raised carries the generic message,
which names neither any of the seven fields nor any range bound — refuting
the claim that every invalid input produces a dialog naming the offending
field and its valid range. -/
theorem nonnumeric_dialog_names_no_field :
    predictCrop clsAll eBad [] st0 = (st0, [numericDialog]) ∧
    (∀ k ∈ fieldNames, mentions numericDialog.message k = false) ∧
    (∀ b ∈ boundStrings, mentions numericDialog.message b = false) :=
  ⟨rfl, by decide, by decide⟩

/-- C2 (amended): every invalid prediction request raises exactly one
blocking error dialog and returns without predicting; for an out-of-range
value the dialog names the first offending field and its valid range, while
for a non-numeric entry the dialog carries the generic message asking for
numeric values in all fields. -/
theorem invalid_input_single_dialog (classes : List String)
    (st : AppState classes) (e : Entries) (tips : List String) :
    (parseEntries e = none →
      predictCrop classes e tips st = (st, [numericDialog])) ∧
    (∀ (m : Measurement) (c : FieldCheck), parseEntries e = some m →
      firstViolation m = some c →
      predictCrop classes e tips st = (st, [rangeDialog c]) ∧
      mentions (rangeDialog c).message c.name = true ∧
      mentions (rangeDialog c).message (toString c.lo) = true ∧
      mentions (rangeDialog c).message (toString c.hi) = true) := by
  constructor
  · intro hp
    unfold predictCrop
    rw [hp]
  · intro m c hp hfv
    refine ⟨?_, ?_⟩
    · unfold predictCrop
      rw [hp]
      dsimp only
      rw [hfv]
    · have hc : c ∈ checksList m := List.mem_of_find?_eq_some hfv
      simp only [checksList, List.mem_cons, List.not_mem_nil, or_false] at hc
      rcases hc with h | h | h | h | h | h | h <;> subst h <;>
        refine ⟨?_, ?_, ?_⟩ <;> (dsimp only [rangeDialog]; decide)

/-- C2 witness: a concrete request with Nitrogen out of range raises exactly
the dialog naming Nitrogen and its range. -/
theorem invalid_input_single_dialog_witness :
    predictCrop clsAll eMulti [] st0
      = (st0, [rangeDialog ⟨"Nitrogen", 200, 0, 150⟩]) :=
  ((invalid_input_single_dialog clsAll st0 eMulti []).2
    ⟨200, 75, 75, 50, 55, 6, 1000⟩ ⟨"Nitrogen", 200, 0, 150⟩ rfl (by decide)).1

/-- C3: when validation fails (non-numeric entry or out-of-range value), no
classifier inference runs: the operation returns with the whole state — in
particular the result label, the cultivation-guide text and the probability
chart — unchanged from its previous value. -/
theorem invalid_input_leaves_display_unchanged (classes : List String)
    (st : AppState classes) (e : Entries) (tips : List String) :
    (parseEntries e = none → (predictCrop classes e tips st).1 = st) ∧
    (∀ m : Measurement, parseEntries e = some m → firstViolation m ≠ none →
      (predictCrop classes e tips st).1 = st ∧
      (predictCrop classes e tips st).1.display.resultLabel
        = st.display.resultLabel ∧
      (predictCrop classes e tips st).1.display.infoText
        = st.display.infoText ∧
      (predictCrop classes e tips st).1.display.chart = st.display.chart) := by
  constructor
  · intro hp
    unfold predictCrop
    rw [hp]
  · intro m hp hfv
    unfold predictCrop
    rw [hp]
    dsimp only
    cases hfv2 : firstViolation m with
    | none => exact absurd hfv2 hfv
    | some c => exact ⟨rfl, rfl, rfl, rfl⟩

/-- C3 witness: a concrete prediction request with a non-numeric entry leaves
the state unchanged. -/
theorem invalid_input_leaves_display_unchanged_witness :
    (predictCrop clsAll eBad [] st0).1 = st0 :=
  (invalid_input_leaves_display_unchanged clsAll st0 eBad []).1 rfl

/-- C10: when a prediction request has out-of-range fields, exactly one
dialog is raised, and it reports the first out-of-range field in the fixed
order Nitrogen, Phosphorus, Potassium, Temperature, Humidity, pH, Rainfall
(the head of the out-of-range checks in validation order). -/
theorem first_out_of_range_field_reported (classes : List String)
    (st : AppState classes) (e : Entries) (tips : List String)
    (m : Measurement) (c : FieldCheck) (hp : parseEntries e = some m)
    (hfv : ((checksList m).filter outOfRangeB).head? = some c) :
    (predictCrop classes e tips st).2 = [rangeDialog c] ∧
    (predictCrop classes e tips st).2.length = 1 ∧
    (checksList m).map FieldCheck.name = fieldNames := by
  have hfind : firstViolation m = some c := by
    rw [firstViolation, find?_eq_head?_filter]
    exact hfv
  have h1 : (predictCrop classes e tips st).2 = [rangeDialog c] := by
    unfold predictCrop
    rw [hp]
    dsimp only
    rw [hfind]
  refine ⟨h1, ?_, rfl⟩
  rw [h1]
  rfl

/-- C10 witness: with Nitrogen, Temperature and Rainfall all out of range,
the single dialog raised reports Nitrogen. -/
theorem first_out_of_range_field_reported_witness :
    (predictCrop clsAll eMulti [] st0).2
      = [rangeDialog ⟨"Nitrogen", 200, 0, 150⟩] :=
  (first_out_of_range_field_reported clsAll st0 eMulti []
    ⟨200, 75, 75, 50, 55, 6, 1000⟩ ⟨"Nitrogen", 200, 0, 150⟩ rfl (by decide)).1

/-- C4: the knowledge table maps each of the eight crop labels to exactly the
seven descriptive fields Cultivation, Water, Pests, Harvest, Fertilizer, Soil,
Climate, and for every one of the eight crop names the lookup returns
non-empty text for every one of the seven fields. -/
theorem base_info_eight_crops_seven_fields :
    BASE_INFO.map Prod.fst = cropChoices ∧
    cropChoices.length = 8 ∧ infoHeadings.length = 7 ∧
    (∀ p ∈ BASE_INFO, p.2.map Prod.fst = infoHeadings) ∧
    (∀ c ∈ cropChoices, ∀ f ∈ infoHeadings, hasText BASE_INFO c f = true) := by
  exact ⟨by decide, by decide, by decide, by decide, by decide⟩

/-- C4 witness: the lookup of a concrete crop and field returns non-empty
text. -/
theorem base_info_eight_crops_seven_fields_witness :
    hasText BASE_INFO "Coffee" "Climate" = true :=
  base_info_eight_crops_seven_fields.2.2.2.2 "Coffee" (by decide) "Climate" (by decide)

/-- C5: the knowledge table component of the application state is never
mutated: after any sequence of GUI events (predict or search clicks) it equals
its initial value. -/
theorem base_info_never_mutated (classes : List String) (ops : List Op)
    (st : AppState classes) :
    (runOps classes ops st).baseInfo = st.baseInfo := by
  induction ops generalizing st with
  | nil => rfl
  | cons op rest ih =>
    have h : runOps classes (op :: rest) st
        = runOps classes rest (runOp classes op st) := rfl
    rw [h, ih, runOp_baseInfo]

/-- C7: the classifier component of the application state is never retrained
or mutated: after any sequence of GUI events it equals the classifier built at
startup, so every prediction uses the same classifier. -/
theorem classifier_never_mutated (classes : List String) (ops : List Op)
    (st : AppState classes) :
    (runOps classes ops st).clf = st.clf := by
  induction ops generalizing st with
  | nil => rfl
  | cons op rest ih =>
    have h : runOps classes (op :: rest) st
        = runOps classes rest (runOp classes op st) := rfl
    rw [h, ih, runOp_clf]

/-- Helper: `npMax` bounds every element of the list. -/
theorem le_npMax (l : List ℚ) : ∀ a ∈ l, a ≤ npMax l := by
  induction l with
  | nil => intro a ha; cases ha
  | cons x rest ih =>
    intro a ha
    cases rest with
    | nil =>
      rw [List.mem_singleton] at ha
      subst ha
      exact le_refl _
    | cons y rest2 =>
      rcases List.mem_cons.mp ha with h | h
      · subst h
        exact le_max_left _ _
      · exact le_trans (ih a h) (le_max_right _ _)

/-- Helper: `npMax` of a non-empty list is one of its elements. -/
theorem npMax_mem (l : List ℚ) (h : l ≠ []) : npMax l ∈ l := by
  induction l with
  | nil => exact absurd rfl h
  | cons x rest ih =>
    cases rest with
    | nil => simp [npMax]
    | cons y rest2 =>
      have hm : npMax (y :: rest2) ∈ y :: rest2 := ih (by simp)
      by_cases hc : x ≤ npMax (y :: rest2)
      · have he : npMax (x :: y :: rest2) = npMax (y :: rest2) := by
          show max x (npMax (y :: rest2)) = _
          exact max_eq_right hc
        rw [he]
        exact List.mem_cons_of_mem _ hm
      · have he : npMax (x :: y :: rest2) = x := by
          show max x (npMax (y :: rest2)) = x
          exact max_eq_left (le_of_not_le hc)
        rw [he]
        exact List.mem_cons_self _ _

/-- C6: the predicted crop label — the inverse transform of the model's
predicted class index — is one of the eight fixed crop names and a key of the
static knowledge table, for any training samples drawn from the eight names
(which is what `np.random.choice` over that list guarantees), so the guide
lookup never misses. -/
theorem predicted_crop_is_known_key (samples : List String)
    (hsub : ∀ c ∈ samples, c ∈ cropChoices)
    (st : AppState (leClasses samples)) (m : Measurement) :
    (leClasses samples).get (st.clf.predictIdx m) ∈ cropChoices ∧
    (lookupTable BASE_INFO
      ((leClasses samples).get (st.clf.predictIdx m))).isSome = true := by
  have hmem : (leClasses samples).get (st.clf.predictIdx m) ∈ leClasses samples :=
    (leClasses samples).get_mem (st.clf.predictIdx m).1 (st.clf.predictIdx m).2
  have hch : (leClasses samples).get (st.clf.predictIdx m) ∈ cropChoices :=
    hsub _ (mem_leClasses.mp hmem)
  exact ⟨hch, cropChoices_are_keys _ hch⟩

/-- C6 witness: a concrete classifier over the full class list predicts a
crop that is a key of the knowledge table. -/
theorem predicted_crop_is_known_key_witness :
    clsAll.get (st0.clf.predictIdx mOk) ∈ cropChoices ∧
    (lookupTable BASE_INFO (clsAll.get (st0.clf.predictIdx mOk))).isSome = true :=
  predicted_crop_is_known_key cropChoices (fun _ h => h) st0 mOk

/-- C8: for every valid prediction request (training samples covering exactly
the eight crop names), no dialog is raised, the chart gets one bar per class
— eight bars — pairing each class with its probability from `predict_proba`,
and the result label shows the predicted crop with the maximum of the
probability vector times 100 as the confidence; that maximum really bounds
the vector and is attained in it. -/
theorem valid_predict_renders_probs (samples : List String)
    (hsub : ∀ c ∈ samples, c ∈ cropChoices)
    (hsup : ∀ c ∈ cropChoices, c ∈ samples)
    (st : AppState (leClasses samples)) (e : Entries) (m : Measurement)
    (tips : List String) (hp : parseEntries e = some m)
    (hfv : firstViolation m = none) :
    (predictCrop (leClasses samples) e tips st).2 = [] ∧
    (predictCrop (leClasses samples) e tips st).1.display.chart
      = (leClasses samples).zip (st.clf.predictProba m) ∧
    ((predictCrop (leClasses samples) e tips st).1.display.chart).length = 8 ∧
    (predictCrop (leClasses samples) e tips st).1.display.resultLabel
      = ResultMsg.recommended ((leClasses samples).get (st.clf.predictIdx m))
          (npMax (st.clf.predictProba m) * 100) ∧
    (∀ a ∈ st.clf.predictProba m, a ≤ npMax (st.clf.predictProba m)) ∧
    npMax (st.clf.predictProba m) ∈ st.clf.predictProba m := by
  have hred : predictCrop (leClasses samples) e tips st
      = ({ st with display :=
          { resultLabel :=
              ResultMsg.recommended ((leClasses samples).get (st.clf.predictIdx m))
                (npMax (st.clf.predictProba m) * 100)
            infoText := renderCropInfo st.baseInfo
              ((leClasses samples).get (st.clf.predictIdx m)) tips
            chart := (leClasses samples).zip (st.clf.predictProba m) } }, []) := by
    unfold predictCrop
    rw [hp]
    dsimp only
    rw [hfv]
  have hne : st.clf.predictProba m ≠ [] := by
    intro hnil
    have hlen := st.clf.probaLen m
    rw [hnil, length_leClasses_eight samples hsub hsup] at hlen
    exact absurd hlen.symm (by decide)
  refine ⟨by rw [hred], by rw [hred], ?_, by rw [hred], le_npMax _, npMax_mem _ hne⟩
  rw [hred]
  show ((leClasses samples).zip (st.clf.predictProba m)).length = 8
  rw [List.length_zip _ _, st.clf.probaLen m, min_self,
    length_leClasses_eight samples hsub hsup]

/-- C8 witness: a concrete valid request against a concrete classifier raises
no dialog. -/
theorem valid_predict_renders_probs_witness :
    (predictCrop clsAll eOk [] st0).2 = [] :=
  (valid_predict_renders_probs cropChoices (fun _ h => h) (fun _ h => h)
    st0 eOk mOk [] rfl (by decide)).1

/-- C9: a search succeeds exactly when `capitalize` applied first and `strip`
second turns the entered string into a key of the knowledge table, and
otherwise raises the Not Found dialog; a known crop name in mixed letter
case or with trailing whitespace succeeds, while the same name with leading
whitespace fails, because capitalization happens before stripping. -/
theorem search_capitalize_then_strip (classes : List String)
    (st : AppState classes) (hbi : st.baseInfo = BASE_INFO) :
    (∀ s tips, ((searchCrop classes s tips st).2 = [] ↔
      (lookupTable BASE_INFO (searchKey s)).isSome = true)) ∧
    (∀ s tips, (lookupTable BASE_INFO (searchKey s)).isSome = false →
      searchCrop classes s tips st
        = (st, [⟨"Not Found", notFoundMsg (searchKey s)⟩])) ∧
    (∀ tips, (searchCrop classes "rICE" tips st).2 = []) ∧
    (∀ tips, (searchCrop classes "wheat " tips st).2 = []) ∧
    (∀ tips, (searchCrop classes " rice" tips st).2 ≠ []) := by
  have hiff : ∀ s tips, ((searchCrop classes s tips st).2 = [] ↔
      (lookupTable BASE_INFO (searchKey s)).isSome = true) := by
    intro s tips
    unfold searchCrop
    rw [hbi]
    by_cases h : (lookupTable BASE_INFO (searchKey s)).isSome = true
    · rw [if_pos h]
      simpa using h
    · rw [if_neg h]
      simp [h]
  refine ⟨hiff, ?_, ?_, ?_, ?_⟩
  · intro s tips hnone
    unfold searchCrop
    rw [hbi, if_neg (by simp [hnone])]
  · intro tips
    exact (hiff "rICE" tips).mpr (by decide)
  · intro tips
    exact (hiff "wheat " tips).mpr (by decide)
  · intro tips hempty
    exact absurd ((hiff " rice" tips).mp hempty) (by decide)

/-- C9 witness: the concrete leading-whitespace search fails on the startup
state. -/
theorem search_capitalize_then_strip_witness :
    (searchCrop clsAll " rice" [] st0).2 ≠ [] :=
  (search_capitalize_then_strip clsAll st0 rfl).2.2.2.2 []

end Task7
